import Mathlib

/-!
Shallow embedding of the byzantine-fault evidence subsystem of a BFT
consensus engine: the `Evidence` variants with their verification,
hashing and equality operations, the `EvidenceList` Merkle aggregation,
and the `MockPV` signing authority.

Machine integers (Go `int64`, `int`) are modelled as `Int`; byte slices
as `List Nat`.  External collaborators that are not part of the sources
(the crypto signer, the amino codec, the merkle two-hash combinator, and
the Vote/Proposal/Heartbeat message types) are modelled from the spec as
ideal injective encodings, as documented on each definition.
-/

namespace Tendermint

/-- Byte strings (Go `[]byte`) are modelled as lists of naturals. -/
abbrev Bytes := List Nat

/-- Modelled from the spec: the external Cryptographic Signer's private
key (`crypto.PrivKey`), reduced to an opaque key identifier. -/
structure PrivKey where
  key : Nat
deriving DecidableEq

/-- Modelled from the spec: the external public key (`crypto.PubKey`). -/
structure PubKey where
  key : Nat
deriving DecidableEq

/-- Modelled from the spec: derives the public key of a private key. -/
def PrivKey.PubKey (sk : PrivKey) : PubKey :=
  ⟨sk.key⟩

/-- Modelled from the spec: the accused validator's identity, derived
from its public key (`crypto.PubKey.Address`). -/
def PubKey.Address (pk : PubKey) : Bytes :=
  [pk.key]

/-- Modelled from the spec: the external signer produces signatures over
canonical byte encodings; idealized as an injective pairing of the key
with the message. -/
def PrivKey.Sign (sk : PrivKey) (msg : Bytes) : Bytes :=
  sk.key :: msg

/-- Modelled from the spec: signature verification under a public key
(`crypto.PubKey.VerifyBytes`); a signature is valid exactly when it is
the ideal signature of the message under the matching private key. -/
def PubKey.VerifyBytes (pk : PubKey) (msg sig : Bytes) : Bool :=
  sig == pk.key :: msg

/-- Modelled from the spec: a block reference ("block identifier"),
kept opaque as its canonical bytes. -/
structure BlockID where
  id : Bytes
deriving DecidableEq

/-- Equality test on block identifiers (`BlockID.Equals`). -/
def BlockID.Equals (a b : BlockID) : Bool :=
  a.id == b.id

/-- Modelled from the spec: a Vote wraps height, round, step/type,
validator address, validator index and a block reference.  The Go
`Type` field is rendered `Type_`. -/
structure Vote where
  Height : Int
  Round : Int
  Type_ : Nat
  ValidatorAddress : Bytes
  ValidatorIndex : Int
  BlockID : BlockID
deriving DecidableEq

/-- Encoding of a signed integer used by the modelled canonical
encodings: a sign byte followed by the magnitude. -/
def encInt (n : Int) : Bytes :=
  [if n < 0 then 1 else 0, n.natAbs]

/-- Length-prefixed encoding of a byte string, used by the modelled
canonical encodings. -/
def encBytes (bs : Bytes) : Bytes :=
  bs.length :: bs

/-- Hexadecimal digit character for a value below 16, lowercase as in
Go's `%x` format verb. -/
def hexDigit (n : Nat) : Char :=
  if n < 10 then Char.ofNat (48 + n) else Char.ofNat (87 + n)

/-- Go's `%x` rendering of one byte: two lowercase hex digits. -/
def hexOfByte (b : Nat) : List Char :=
  [hexDigit (b / 16 % 16), hexDigit (b % 16)]

/-- Go's `%x` rendering of a byte string. -/
def hexOfBytes (bs : Bytes) : String :=
  String.mk (List.flatten (bs.map hexOfByte))

/-- Go's `[]byte(s)` conversion of an ASCII string. -/
def stringToBytes (s : String) : Bytes :=
  s.toList.map Char.toNat

/-- Modelled from the spec: the canonical sign-bytes encoding of a vote.
As called in the sources (`vote.SignBytes()` in both
`DuplicateVoteEvidence.Verify` and `MockPV.SignVote`), it takes no
chain-ID argument, so the encoding covers exactly the vote's fields. -/
def Vote.SignBytes (v : Vote) : Bytes :=
  encInt v.Height ++ encInt v.Round ++ [v.Type_] ++
    encBytes v.ValidatorAddress ++ encInt v.ValidatorIndex ++
    encBytes v.BlockID.id

/-- A reply to a sign-vote request: the signed vote together with its
signature (`SignVoteReply`). -/
structure SignVoteReply where
  Vote : Vote
  Signature : Bytes
deriving DecidableEq

/-- DuplicateVoteEvidence contains evidence a validator signed two
conflicting votes. -/
structure DuplicateVoteEvidence where
  PubKey : PubKey
  VoteA : SignVoteReply
  VoteB : SignVoteReply
deriving DecidableEq

/-- UNSTABLE mock evidence (`MockGoodEvidence`). -/
structure MockGoodEvidence where
  Height_ : Int
  Address_ : Bytes
deriving DecidableEq

/-- UNSTABLE mock evidence (`MockBadEvidence` embeds
`MockGoodEvidence`). -/
structure MockBadEvidence extends MockGoodEvidence
deriving DecidableEq

/-- The closed set of concrete variants registered behind the Go
`Evidence` interface (`RegisterEvidences`): the production
`DuplicateVoteEvidence` plus the two test mocks. -/
inductive Evidence where
  | duplicateVote (dve : DuplicateVoteEvidence)
  | mockGood (e : MockGoodEvidence)
  | mockBad (e : MockBadEvidence)
deriving DecidableEq

/-- Discriminator for the `DuplicateVoteEvidence` concrete variant. -/
def Evidence.isDuplicateVote : Evidence → Bool
  | .duplicateVote _ => true
  | _ => false

/-- Discriminator for the `MockGoodEvidence` concrete variant. -/
def Evidence.isMockGood : Evidence → Bool
  | .mockGood _ => true
  | _ => false

/-- Discriminator for the `MockBadEvidence` concrete variant. -/
def Evidence.isMockBad : Evidence → Bool
  | .mockBad _ => true
  | _ => false

/-- The Go `error` values produced by this subsystem: one constructor
per `fmt.Errorf` call site of the verification code (each carrying the
data interpolated into its message, so the errors stay distinguishable),
the `MockBadEvidence` error, and the `ErrEvidenceInvalid` wrapper that
pairs a piece of evidence with the error denoting why it is invalid. -/
inductive Error where
  | hrsMismatch (voteA voteB : SignVoteReply)
  | validatorAddressMismatch (a b : Bytes)
  | validatorIndexMismatch (a b : Int)
  | sameBlockID (bid : BlockID)
  | sanityCheckFailed (addr : Bytes) (pk : PubKey)
  | invalidSignatureVoteA
  | invalidSignatureVoteB
  | mockBadEvidence
  | evidenceInvalid (ev : Evidence) (errorValue : Error)
deriving DecidableEq

/-- NewEvidenceInvalidErr wraps a piece of evidence and the error
denoting how or why it is invalid (`ErrEvidenceInvalid`). -/
def NewEvidenceInvalidErr (ev : Evidence) (err : Error) : Error :=
  Error.evidenceInvalid ev err

/-- The evidence carried by an error, when the error is the
`ErrEvidenceInvalid` evidence-plus-cause wrapper. -/
def Error.wrappedEvidence : Error → Option Evidence
  | .evidenceInvalid ev _ => some ev
  | _ => none

/-- The underlying cause carried by an error, when the error is the
`ErrEvidenceInvalid` evidence-plus-cause wrapper. -/
def Error.wrappedCause : Error → Option Error
  | .evidenceInvalid _ err => some err
  | _ => none

/-- MaxEvidenceBytes is a maximum size of any evidence. -/
def MaxEvidenceBytes : Int := 440

/-- MaxEvidenceBytesPerBlock returns the maximum evidence size per
block (`blockMaxBytes / 10`, Go truncated integer division). -/
def MaxEvidenceBytesPerBlock (blockMaxBytes : Int) : Int :=
  Int.tdiv blockMaxBytes 10

/-- Modelled from the spec: `aminoHasher(...).Hash()`, the canonical
hash over the amino-serialized form of a registered evidence value;
the external codec and hash are idealized as an injective tagged
encoding of the value's content. -/
def aminoHash : Evidence → Bytes
  | .duplicateVote dve =>
      0 :: encBytes [dve.PubKey.key] ++
        encBytes (encBytes dve.VoteA.Vote.SignBytes ++ encBytes dve.VoteA.Signature) ++
        encBytes (encBytes dve.VoteB.Vote.SignBytes ++ encBytes dve.VoteB.Signature)
  | .mockGood e => 1 :: encInt e.Height_ ++ encBytes e.Address_
  | .mockBad e => 2 :: encInt e.Height_ ++ encBytes e.Address_

/-- Height returns the height this evidence refers to
(`DuplicateVoteEvidence.Height`). -/
def DuplicateVoteEvidence.Height (dve : DuplicateVoteEvidence) : Int :=
  dve.VoteA.Vote.Height

/-- Address returns the address of the validator
(`DuplicateVoteEvidence.Address`). -/
def DuplicateVoteEvidence.Address (dve : DuplicateVoteEvidence) : Bytes :=
  dve.PubKey.Address

/-- Hash returns the hash of the evidence
(`DuplicateVoteEvidence.Hash`, via the amino hasher). -/
def DuplicateVoteEvidence.Hash (dve : DuplicateVoteEvidence) : Bytes :=
  aminoHash (Evidence.duplicateVote dve)

/-- Verify returns an error if the two votes are not conflicting: they
must be from the same validator, for the same H/R/S, but for different
blocks (`DuplicateVoteEvidence.Verify`).  `none` is Go's nil error. -/
def DuplicateVoteEvidence.Verify (dve : DuplicateVoteEvidence)
    (chainID : String) (pubKey : Tendermint.PubKey) : Option Error :=
  -- H/R/S must be the same
  if dve.VoteA.Vote.Height ≠ dve.VoteB.Vote.Height ∨
      dve.VoteA.Vote.Round ≠ dve.VoteB.Vote.Round ∨
      dve.VoteA.Vote.Type_ ≠ dve.VoteB.Vote.Type_ then
    some (Error.hrsMismatch dve.VoteA dve.VoteB)
  -- Address must be the same
  else if dve.VoteA.Vote.ValidatorAddress ≠ dve.VoteB.Vote.ValidatorAddress then
    some (Error.validatorAddressMismatch dve.VoteA.Vote.ValidatorAddress
      dve.VoteB.Vote.ValidatorAddress)
  -- Index must be the same
  else if dve.VoteA.Vote.ValidatorIndex ≠ dve.VoteB.Vote.ValidatorIndex then
    some (Error.validatorIndexMismatch dve.VoteA.Vote.ValidatorIndex
      dve.VoteB.Vote.ValidatorIndex)
  -- BlockIDs must be different
  else if dve.VoteA.Vote.BlockID.Equals dve.VoteB.Vote.BlockID = true then
    some (Error.sameBlockID dve.VoteA.Vote.BlockID)
  -- pubkey must match address (sanity check)
  else if pubKey.Address ≠ dve.VoteA.Vote.ValidatorAddress then
    some (Error.sanityCheckFailed dve.VoteA.Vote.ValidatorAddress pubKey)
  -- Signatures must be valid
  else if pubKey.VerifyBytes dve.VoteA.Vote.SignBytes dve.VoteA.Signature = false then
    some Error.invalidSignatureVoteA
  else if pubKey.VerifyBytes dve.VoteB.Vote.SignBytes dve.VoteB.Signature = false then
    some Error.invalidSignatureVoteB
  else
    none

/-- Equal checks if two pieces of evidence are equal
(`DuplicateVoteEvidence.Equal`): false on a different concrete variant,
otherwise a byte comparison of the two amino hashes. -/
def DuplicateVoteEvidence.Equal (dve : DuplicateVoteEvidence)
    (ev : Evidence) : Bool :=
  match ev with
  | .duplicateVote _ =>
      aminoHash (Evidence.duplicateVote dve) == aminoHash ev
  | _ => false

/-- Hash of `MockGoodEvidence`: the bytes of the Go format string
`"%d-%x"` applied to the height and the address. -/
def MockGoodEvidence.Hash (e : MockGoodEvidence) : Bytes :=
  stringToBytes (toString e.Height_ ++ "-" ++ hexOfBytes e.Address_)

/-- Equal on `MockGoodEvidence` performs the unchecked type assertion
`ev.(MockGoodEvidence)`; `none` models the Go panic on any other
concrete variant. -/
def MockGoodEvidence.Equal (e : MockGoodEvidence) (ev : Evidence) :
    Option Bool :=
  match ev with
  | .mockGood e2 => some (e.Height_ == e2.Height_ && e.Address_ == e2.Address_)
  | _ => none

/-- Equal on `MockBadEvidence` performs the unchecked type assertion
`ev.(MockBadEvidence)`; `none` models the Go panic on any other
concrete variant. -/
def MockBadEvidence.Equal (e : MockBadEvidence) (ev : Evidence) :
    Option Bool :=
  match ev with
  | .mockBad e2 => some (e.Height_ == e2.Height_ && e.Address_ == e2.Address_)
  | _ => none

/-- Per-variant dispatch of the interface method `Hash`
(`MockBadEvidence` inherits the hash of its embedded
`MockGoodEvidence`). -/
def Evidence.Hash : Evidence → Bytes
  | .duplicateVote dve => dve.Hash
  | .mockGood e => e.Hash
  | .mockBad e => e.toMockGoodEvidence.Hash

/-- Per-variant dispatch of the interface method `Verify`:
`MockGoodEvidence.Verify` always returns nil and
`MockBadEvidence.Verify` always returns an error. -/
def Evidence.Verify : Evidence → String → PubKey → Option Error
  | .duplicateVote dve, chainID, pubKey => dve.Verify chainID pubKey
  | .mockGood _, _, _ => none
  | .mockBad _, _, _ => some Error.mockBadEvidence

/-- Modelled from the spec: the canonical two-hash combinator
(`merkle.SimpleHashFromTwoHashes`, not under the sources) that combines
two child hashes into a parent hash; idealized as an injective pairing
of the two children. -/
def SimpleHashFromTwoHashes (left right : Bytes) : Bytes :=
  left.length :: (left ++ right)

/-- Hash returns the simple merkle root hash of the EvidenceList
(`EvidenceList.Hash`): Go's nil result on the empty list is modelled as
the empty byte string. -/
def EvidenceList.Hash (evl : List Evidence) : Bytes :=
  match evl with
  | [] => []
  | [ev] => ev.Hash
  | e1 :: e2 :: rest =>
      SimpleHashFromTwoHashes
        (EvidenceList.Hash ((e1 :: e2 :: rest).take
          (((e1 :: e2 :: rest).length + 1) / 2)))
        (EvidenceList.Hash ((e1 :: e2 :: rest).drop
          (((e1 :: e2 :: rest).length + 1) / 2)))
termination_by evl.length
decreasing_by
  all_goals simp [List.length_take, List.length_drop]
  all_goals omega

/-- Has returns true if the evidence is in the EvidenceList
(`EvidenceList.Has`): a linear scan with the interface `Equal`.  Since
the mock variants' `Equal` can panic, the scan is modelled in `Option`,
with `none` for a panic. -/
def Evidence.Equal : Evidence → Evidence → Option Bool
  | .duplicateVote dve, ev => some (dve.Equal ev)
  | .mockGood e, ev => e.Equal ev
  | .mockBad e, ev => e.Equal ev

--------------------------------------------------------------------
-- PrivValidator: the MockPV signing authority and the message types
-- it signs in place.

/-- Modelled from the spec: a Proposal message with a signature field
assigned in place by `SignProposal`; the remaining fields stand for the
proposal's signed content. -/
structure Proposal where
  Height : Int
  Round : Int
  POLRound : Int
  BlockPartsHeader : Bytes
  Signature : Bytes
deriving DecidableEq

/-- Modelled from the spec: the canonical chain-ID-bound sign-bytes of
a proposal (`Proposal.SignBytes(chainID)`), covering every field except
the signature. -/
def Proposal.SignBytes (p : Proposal) (chainID : String) : Bytes :=
  encBytes (stringToBytes chainID) ++ encInt p.Height ++ encInt p.Round ++
    encInt p.POLRound ++ encBytes p.BlockPartsHeader

/-- Modelled from the spec: a Heartbeat message with a signature field
assigned in place by `SignHeartbeat`. -/
structure Heartbeat where
  ValidatorAddress : Bytes
  ValidatorIndex : Int
  Height : Int
  Round : Int
  Sequence : Int
  Signature : Bytes
deriving DecidableEq

/-- Modelled from the spec: the canonical chain-ID-bound sign-bytes of
a heartbeat (`Heartbeat.SignBytes(chainID)`), covering every field
except the signature. -/
def Heartbeat.SignBytes (hb : Heartbeat) (chainID : String) : Bytes :=
  encBytes (stringToBytes chainID) ++ encBytes hb.ValidatorAddress ++
    encInt hb.ValidatorIndex ++ encInt hb.Height ++ encInt hb.Round ++
    encInt hb.Sequence

/-- MockPV implements PrivValidator without any safety or persistence;
only use it for testing. -/
structure MockPV where
  privKey : PrivKey
deriving DecidableEq

/-- Implements PrivValidator (`MockPV.GetAddress`). -/
def MockPV.GetAddress (pv : MockPV) : Bytes :=
  pv.privKey.PubKey.Address

/-- Implements PrivValidator (`MockPV.GetPubKey`). -/
def MockPV.GetPubKey (pv : MockPV) : PubKey :=
  pv.privKey.PubKey

/-- Implements PrivValidator (`MockPV.SignVote`): signs the vote's
sign-bytes and returns a reply holding a copy of the vote and the
signature.  The modelled signer is total, so the Go error branch is
unreachable and the reply is returned directly. -/
def MockPV.SignVote (pv : MockPV) (vote : Vote) : SignVoteReply :=
  { Vote := vote, Signature := pv.privKey.Sign vote.SignBytes }

/-- Implements PrivValidator (`MockPV.SignProposal`): Go assigns the
signature into the proposal through a pointer; the mutation is modelled
by returning the updated proposal. -/
def MockPV.SignProposal (pv : MockPV) (chainID : String)
    (proposal : Proposal) : Proposal :=
  { proposal with Signature := pv.privKey.Sign (proposal.SignBytes chainID) }

/-- Implements PrivValidator (`MockPV.SignHeartbeat`): signs the
heartbeat without any checking; the in-place mutation is modelled by
returning the updated heartbeat. -/
def MockPV.SignHeartbeat (pv : MockPV) (chainID : String)
    (heartbeat : Heartbeat) : Heartbeat :=
  { heartbeat with Signature := pv.privKey.Sign (heartbeat.SignBytes chainID) }

--------------------------------------------------------------------
-- Concrete instances used to exercise the definitions.

/-- A concrete private key for the example validator. -/
def examplePrivKey : PrivKey := ⟨7⟩

/-- The example validator's public key. -/
def examplePubKey : PubKey := examplePrivKey.PubKey

/-- A concrete prevote for block `[1]` at height 5. -/
def exampleVoteA : Vote :=
  { Height := 5, Round := 0, Type_ := 1, ValidatorAddress := [7],
    ValidatorIndex := 0, BlockID := ⟨[1]⟩ }

/-- The conflicting prevote: same H/R/S and validator, block `[2]`. -/
def exampleVoteB : Vote :=
  { exampleVoteA with BlockID := ⟨[2]⟩ }

/-- Correctly signed equivocation evidence built from the two
conflicting example votes. -/
def exampleDVE : DuplicateVoteEvidence :=
  { PubKey := examplePubKey,
    VoteA := MockPV.SignVote ⟨examplePrivKey⟩ exampleVoteA,
    VoteB := MockPV.SignVote ⟨examplePrivKey⟩ exampleVoteB }

/-- Malformed evidence whose two votes disagree on height (voteB signed
at height 6), so its verification fails at the H/R/S check. -/
def mismatchDVE : DuplicateVoteEvidence :=
  { exampleDVE with
    VoteB := MockPV.SignVote ⟨examplePrivKey⟩ { exampleVoteB with Height := 6 } }

/-- A concrete mock evidence value. -/
def exampleMockGood : MockGoodEvidence := ⟨1, [170]⟩

/-- A second, different mock evidence value. -/
def exampleMockGood2 : MockGoodEvidence := ⟨2, [170]⟩

/-- A concrete bad-mock evidence value. -/
def exampleMockBad : MockBadEvidence := ⟨⟨3, [170]⟩⟩

--------------------------------------------------------------------
-- Theorems.

/-- C7: for every non-negative integer `blockMaxBytes`,
`MaxEvidenceBytesPerBlock blockMaxBytes` equals `blockMaxBytes` divided
by 10 (integer division); in particular it maps 10000 to 1000. -/
theorem maxEvidenceBytesPerBlock_is_tenth_of_block :
    (∀ n : Nat, MaxEvidenceBytesPerBlock (n : Int) = ((n / 10 : Nat) : Int)) ∧
    MaxEvidenceBytesPerBlock 10000 = 1000 := by
  constructor
  · intro n
    rfl
  · decide

/-- C5: `DuplicateVoteEvidence.Equal` returns false when the other
evidence's concrete variant is not `DuplicateVoteEvidence`, and
otherwise returns exactly the byte-equality of the two `Hash` values. -/
theorem duplicateVote_equal_iff_hash_eq (dve : DuplicateVoteEvidence)
    (ev : Evidence) :
    dve.Equal ev = (ev.isDuplicateVote && (dve.Hash == ev.Hash)) := by
  cases ev <;>
    simp [DuplicateVoteEvidence.Equal, Evidence.isDuplicateVote,
      Evidence.Hash, DuplicateVoteEvidence.Hash]

/-- C8: `MockPV.SignVote` returns a reply carrying a copy of the input
vote together with the signature over the vote's sign-bytes, and
`MockPV.SignProposal` / `MockPV.SignHeartbeat` change only the
`Signature` field of their argument, leaving every other field
unchanged. -/
theorem mockPV_sign_frame_conditions (pv : MockPV) (vote : Vote)
    (chainID : String) (proposal : Proposal) (heartbeat : Heartbeat) :
    (pv.SignVote vote).Vote = vote ∧
    (pv.SignVote vote).Signature = pv.privKey.Sign vote.SignBytes ∧
    (pv.SignProposal chainID proposal).Signature =
      pv.privKey.Sign (proposal.SignBytes chainID) ∧
    (pv.SignProposal chainID proposal).Height = proposal.Height ∧
    (pv.SignProposal chainID proposal).Round = proposal.Round ∧
    (pv.SignProposal chainID proposal).POLRound = proposal.POLRound ∧
    (pv.SignProposal chainID proposal).BlockPartsHeader =
      proposal.BlockPartsHeader ∧
    (pv.SignHeartbeat chainID heartbeat).Signature =
      pv.privKey.Sign (heartbeat.SignBytes chainID) ∧
    (pv.SignHeartbeat chainID heartbeat).ValidatorAddress =
      heartbeat.ValidatorAddress ∧
    (pv.SignHeartbeat chainID heartbeat).ValidatorIndex =
      heartbeat.ValidatorIndex ∧
    (pv.SignHeartbeat chainID heartbeat).Height = heartbeat.Height ∧
    (pv.SignHeartbeat chainID heartbeat).Round = heartbeat.Round ∧
    (pv.SignHeartbeat chainID heartbeat).Sequence = heartbeat.Sequence :=
  ⟨rfl, rfl, rfl, rfl, rfl, rfl, rfl, rfl, rfl, rfl, rfl, rfl, rfl⟩

/-- C10: `DuplicateVoteEvidence.Height` reports voteA's height and
`DuplicateVoteEvidence.Address` the address derived from the stored
public key, unconditionally: both are insensitive to voteB, and on an
instance whose votes disagree on height (so verification fails) the
height is still voteA's. -/
theorem height_and_address_come_from_voteA_and_pubkey
    (dve : DuplicateVoteEvidence) (chainID : String)
    (pubKey : Tendermint.PubKey) :
    dve.Height = dve.VoteA.Vote.Height ∧
    dve.Address = dve.PubKey.Address ∧
    (∀ vb : SignVoteReply,
      DuplicateVoteEvidence.Height { dve with VoteB := vb } = dve.Height ∧
      DuplicateVoteEvidence.Address { dve with VoteB := vb } = dve.Address) ∧
    (dve.VoteA.Vote.Height ≠ dve.VoteB.Vote.Height →
      dve.Verify chainID pubKey ≠ none ∧
      dve.Height = dve.VoteA.Vote.Height) := by
  refine ⟨rfl, rfl, fun vb => ⟨rfl, rfl⟩, fun h => ⟨?_, rfl⟩⟩
  unfold DuplicateVoteEvidence.Verify
  rw [if_pos (Or.inl h)]
  simp

/-- C10 witness: on the concrete malformed evidence whose votes
disagree on height, the height is voteA's and verification fails. -/
theorem height_and_address_come_from_voteA_and_pubkey_witness :
    mismatchDVE.Height = mismatchDVE.VoteA.Vote.Height ∧
    mismatchDVE.Verify "chain" examplePubKey ≠ none := by
  have h := (height_and_address_come_from_voteA_and_pubkey mismatchDVE
    "chain" examplePubKey).2.2.2 (by decide)
  exact ⟨h.2, h.1⟩

/-- C2 counterexample: concrete, correctly signed duplicate-vote
evidence passes `Verify` under two different chain IDs, refuting the
claim that verification under a chain ID other than the one signed for
must fail. -/
theorem verify_succeeds_under_two_chain_ids :
    exampleDVE.Verify "mychain" examplePubKey = none ∧
    exampleDVE.Verify "otherchain" examplePubKey = none ∧
    "mychain" ≠ "otherchain" := by
  refine ⟨by decide, by decide, by decide⟩

/-- C2 amended: `DuplicateVoteEvidence.Verify` never consults its
`chainID` argument — the signature check uses `Vote.SignBytes`, which
takes no chain ID — so its result is identical under any two chain
IDs. -/
theorem verify_independent_of_chain_id (dve : DuplicateVoteEvidence)
    (chainA chainB : String) (pubKey : Tendermint.PubKey) :
    dve.Verify chainA pubKey = dve.Verify chainB pubKey := rfl

/-- C1: `DuplicateVoteEvidence.Verify` succeeds exactly when all six
checks pass — equal height/round/type, equal validator addresses, equal
validator indices, different block identifiers, pubkey address matching
voteA's validator address, and both signatures valid — and the first
violated check determines the distinct error returned, in that order. -/
theorem verify_performs_six_checks_in_order
    (dve : DuplicateVoteEvidence) (chainID : String)
    (pubKey : Tendermint.PubKey) :
    (dve.Verify chainID pubKey = none ↔
      ((dve.VoteA.Vote.Height = dve.VoteB.Vote.Height ∧
        dve.VoteA.Vote.Round = dve.VoteB.Vote.Round ∧
        dve.VoteA.Vote.Type_ = dve.VoteB.Vote.Type_) ∧
       dve.VoteA.Vote.ValidatorAddress = dve.VoteB.Vote.ValidatorAddress ∧
       dve.VoteA.Vote.ValidatorIndex = dve.VoteB.Vote.ValidatorIndex ∧
       dve.VoteA.Vote.BlockID.Equals dve.VoteB.Vote.BlockID = false ∧
       pubKey.Address = dve.VoteA.Vote.ValidatorAddress ∧
       pubKey.VerifyBytes dve.VoteA.Vote.SignBytes dve.VoteA.Signature = true ∧
       pubKey.VerifyBytes dve.VoteB.Vote.SignBytes dve.VoteB.Signature = true)) ∧
    (¬ (dve.VoteA.Vote.Height = dve.VoteB.Vote.Height ∧
        dve.VoteA.Vote.Round = dve.VoteB.Vote.Round ∧
        dve.VoteA.Vote.Type_ = dve.VoteB.Vote.Type_) →
      dve.Verify chainID pubKey =
        some (Error.hrsMismatch dve.VoteA dve.VoteB)) ∧
    ((dve.VoteA.Vote.Height = dve.VoteB.Vote.Height ∧
      dve.VoteA.Vote.Round = dve.VoteB.Vote.Round ∧
      dve.VoteA.Vote.Type_ = dve.VoteB.Vote.Type_) →
     dve.VoteA.Vote.ValidatorAddress ≠ dve.VoteB.Vote.ValidatorAddress →
      dve.Verify chainID pubKey =
        some (Error.validatorAddressMismatch dve.VoteA.Vote.ValidatorAddress
          dve.VoteB.Vote.ValidatorAddress)) ∧
    ((dve.VoteA.Vote.Height = dve.VoteB.Vote.Height ∧
      dve.VoteA.Vote.Round = dve.VoteB.Vote.Round ∧
      dve.VoteA.Vote.Type_ = dve.VoteB.Vote.Type_) →
     dve.VoteA.Vote.ValidatorAddress = dve.VoteB.Vote.ValidatorAddress →
     dve.VoteA.Vote.ValidatorIndex ≠ dve.VoteB.Vote.ValidatorIndex →
      dve.Verify chainID pubKey =
        some (Error.validatorIndexMismatch dve.VoteA.Vote.ValidatorIndex
          dve.VoteB.Vote.ValidatorIndex)) ∧
    ((dve.VoteA.Vote.Height = dve.VoteB.Vote.Height ∧
      dve.VoteA.Vote.Round = dve.VoteB.Vote.Round ∧
      dve.VoteA.Vote.Type_ = dve.VoteB.Vote.Type_) →
     dve.VoteA.Vote.ValidatorAddress = dve.VoteB.Vote.ValidatorAddress →
     dve.VoteA.Vote.ValidatorIndex = dve.VoteB.Vote.ValidatorIndex →
     dve.VoteA.Vote.BlockID.Equals dve.VoteB.Vote.BlockID = true →
      dve.Verify chainID pubKey =
        some (Error.sameBlockID dve.VoteA.Vote.BlockID)) ∧
    ((dve.VoteA.Vote.Height = dve.VoteB.Vote.Height ∧
      dve.VoteA.Vote.Round = dve.VoteB.Vote.Round ∧
      dve.VoteA.Vote.Type_ = dve.VoteB.Vote.Type_) →
     dve.VoteA.Vote.ValidatorAddress = dve.VoteB.Vote.ValidatorAddress →
     dve.VoteA.Vote.ValidatorIndex = dve.VoteB.Vote.ValidatorIndex →
     dve.VoteA.Vote.BlockID.Equals dve.VoteB.Vote.BlockID = false →
     pubKey.Address ≠ dve.VoteA.Vote.ValidatorAddress →
      dve.Verify chainID pubKey =
        some (Error.sanityCheckFailed dve.VoteA.Vote.ValidatorAddress
          pubKey)) ∧
    ((dve.VoteA.Vote.Height = dve.VoteB.Vote.Height ∧
      dve.VoteA.Vote.Round = dve.VoteB.Vote.Round ∧
      dve.VoteA.Vote.Type_ = dve.VoteB.Vote.Type_) →
     dve.VoteA.Vote.ValidatorAddress = dve.VoteB.Vote.ValidatorAddress →
     dve.VoteA.Vote.ValidatorIndex = dve.VoteB.Vote.ValidatorIndex →
     dve.VoteA.Vote.BlockID.Equals dve.VoteB.Vote.BlockID = false →
     pubKey.Address = dve.VoteA.Vote.ValidatorAddress →
     pubKey.VerifyBytes dve.VoteA.Vote.SignBytes dve.VoteA.Signature = false →
      dve.Verify chainID pubKey = some Error.invalidSignatureVoteA) ∧
    ((dve.VoteA.Vote.Height = dve.VoteB.Vote.Height ∧
      dve.VoteA.Vote.Round = dve.VoteB.Vote.Round ∧
      dve.VoteA.Vote.Type_ = dve.VoteB.Vote.Type_) →
     dve.VoteA.Vote.ValidatorAddress = dve.VoteB.Vote.ValidatorAddress →
     dve.VoteA.Vote.ValidatorIndex = dve.VoteB.Vote.ValidatorIndex →
     dve.VoteA.Vote.BlockID.Equals dve.VoteB.Vote.BlockID = false →
     pubKey.Address = dve.VoteA.Vote.ValidatorAddress →
     pubKey.VerifyBytes dve.VoteA.Vote.SignBytes dve.VoteA.Signature = true →
     pubKey.VerifyBytes dve.VoteB.Vote.SignBytes dve.VoteB.Signature = false →
      dve.Verify chainID pubKey = some Error.invalidSignatureVoteB) := by
  unfold DuplicateVoteEvidence.Verify
  split_ifs with h1 h2 h3 h4 h5 h6 h7 <;> simp_all <;> tauto

/-- C1 witness: the concrete correctly signed equivocation evidence
passes every check, so its verification succeeds. -/
theorem verify_performs_six_checks_in_order_witness :
    exampleDVE.Verify "chain" examplePubKey = none :=
  (verify_performs_six_checks_in_order exampleDVE "chain"
    examplePubKey).1.mpr (by decide)

/-- C3 counterexample: on concrete failing evidence, `Verify` returns
an error that carries no evidence — it is not the evidence-plus-cause
wrapper, refuting the claim that every verification failure is returned
as that wrapper. -/
theorem verify_error_not_wrapped_at_concrete_input :
    (Evidence.Verify (Evidence.duplicateVote mismatchDVE) "chain"
      examplePubKey).isSome = true ∧
    ((Evidence.Verify (Evidence.duplicateVote mismatchDVE) "chain"
      examplePubKey).bind Error.wrappedEvidence) = none := by
  refine ⟨by decide, by decide⟩

/-- C3 amended: `Verify` returns the specific cause alone, never the
evidence-plus-cause wrapper; the wrapper `ErrEvidenceInvalid` is
available separately (`NewEvidenceInvalidErr`) and does carry both the
offending evidence and the underlying cause, for callers to attach. -/
theorem verify_returns_bare_cause_and_wrapper_carries_both :
    (∀ (ev : Evidence) (chainID : String) (pubKey : Tendermint.PubKey)
        (e : Error), ev.Verify chainID pubKey = some e →
      e.wrappedEvidence = none ∧ e.wrappedCause = none) ∧
    (∀ (ev : Evidence) (err : Error),
      (NewEvidenceInvalidErr ev err).wrappedEvidence = some ev ∧
      (NewEvidenceInvalidErr ev err).wrappedCause = some err) := by
  constructor
  · intro ev chainID pubKey e h
    cases ev with
    | duplicateVote dve =>
        simp only [Evidence.Verify] at h
        unfold DuplicateVoteEvidence.Verify at h
        split_ifs at h <;> simp only [Option.some.injEq] at h <;>
          subst h <;> exact ⟨rfl, rfl⟩
    | mockGood e2 => simp [Evidence.Verify] at h
    | mockBad e2 =>
        simp only [Evidence.Verify, Option.some.injEq] at h
        subst h
        exact ⟨rfl, rfl⟩
  · intro ev err
    exact ⟨rfl, rfl⟩

/-- C3 witness for the amended claim: the concrete error returned on
the malformed evidence carries no evidence, while wrapping that piece
of evidence with `NewEvidenceInvalidErr` does carry it. -/
theorem verify_returns_bare_cause_and_wrapper_carries_both_witness :
    (Error.hrsMismatch mismatchDVE.VoteA mismatchDVE.VoteB).wrappedEvidence
      = none ∧
    (NewEvidenceInvalidErr (Evidence.duplicateVote mismatchDVE)
      (Error.hrsMismatch mismatchDVE.VoteA mismatchDVE.VoteB)).wrappedEvidence
      = some (Evidence.duplicateVote mismatchDVE) :=
  ⟨(verify_returns_bare_cause_and_wrapper_carries_both.1
      (Evidence.duplicateVote mismatchDVE) "chain" examplePubKey _
      (by decide)).1,
   (verify_returns_bare_cause_and_wrapper_carries_both.2
      (Evidence.duplicateVote mismatchDVE)
      (Error.hrsMismatch mismatchDVE.VoteA mismatchDVE.VoteB)).1⟩

/-- C4: `EvidenceList.Hash` returns the empty marker on the empty
list, the single element's hash on a singleton, and otherwise the
two-hash combination of the recursive hashes of the first
`(n + 1) / 2` elements and of the rest. -/
theorem evidenceList_hash_recursion (l : List Evidence) :
    (l.length = 0 → EvidenceList.Hash l = []) ∧
    (∀ ev : Evidence, l = [ev] → EvidenceList.Hash l = ev.Hash) ∧
    (2 ≤ l.length →
      EvidenceList.Hash l =
        SimpleHashFromTwoHashes
          (EvidenceList.Hash (l.take ((l.length + 1) / 2)))
          (EvidenceList.Hash (l.drop ((l.length + 1) / 2)))) := by
  refine ⟨?_, ?_, ?_⟩
  · intro h
    rw [List.length_eq_zero] at h
    subst h
    rw [EvidenceList.Hash]
  · intro ev h
    subst h
    simp [EvidenceList.Hash]
  · intro h
    match l with
    | e1 :: e2 :: rest => rw [EvidenceList.Hash]

/-- C4 witness: the three branches evaluated on concrete lists of
length zero, one and two. -/
theorem evidenceList_hash_recursion_witness :
    EvidenceList.Hash [] = [] ∧
    EvidenceList.Hash [Evidence.mockGood exampleMockGood] =
      Evidence.Hash (Evidence.mockGood exampleMockGood) ∧
    EvidenceList.Hash
        [Evidence.mockGood exampleMockGood, Evidence.mockBad exampleMockBad] =
      SimpleHashFromTwoHashes
        (EvidenceList.Hash
          ([Evidence.mockGood exampleMockGood,
            Evidence.mockBad exampleMockBad].take
            (([Evidence.mockGood exampleMockGood,
               Evidence.mockBad exampleMockBad].length + 1) / 2)))
        (EvidenceList.Hash
          ([Evidence.mockGood exampleMockGood,
            Evidence.mockBad exampleMockBad].drop
            (([Evidence.mockGood exampleMockGood,
               Evidence.mockBad exampleMockBad].length + 1) / 2))) :=
  ⟨(evidenceList_hash_recursion []).1 rfl,
   (evidenceList_hash_recursion [Evidence.mockGood exampleMockGood]).2.1 _ rfl,
   (evidenceList_hash_recursion
      [Evidence.mockGood exampleMockGood,
       Evidence.mockBad exampleMockBad]).2.2 (by decide)⟩

/-- The modelled two-hash combinator is order-sensitive on distinct
child hashes. -/
theorem simpleHashFromTwoHashes_order_sensitive (x y : Bytes)
    (h : x ≠ y) :
    SimpleHashFromTwoHashes x y ≠ SimpleHashFromTwoHashes y x := by
  intro heq
  unfold SimpleHashFromTwoHashes at heq
  rw [List.cons.injEq] at heq
  exact h (List.append_inj_left heq.2 heq.1)

/-- A two-element evidence list hashes to the combination of the two
element hashes, in list order. -/
theorem evidenceList_hash_pair (a b : Evidence) :
    EvidenceList.Hash [a, b] =
      SimpleHashFromTwoHashes a.Hash b.Hash := by
  rw [EvidenceList.Hash]
  simp [EvidenceList.Hash]

/-- C6: when two evidence items have distinct hashes, the aggregate
hash of the two-element list depends on their order: the hash of
`[a, b]` differs from the hash of `[b, a]`. -/
theorem evidenceList_hash_order_sensitive (a b : Evidence)
    (h : Evidence.Hash a ≠ Evidence.Hash b) :
    EvidenceList.Hash [a, b] ≠ EvidenceList.Hash [b, a] := by
  rw [evidenceList_hash_pair, evidenceList_hash_pair]
  exact simpleHashFromTwoHashes_order_sensitive _ _ h

/-- C6 witness: two concrete mock evidence items with distinct hashes
whose two orderings produce different aggregate hashes. -/
theorem evidenceList_hash_order_sensitive_witness :
    EvidenceList.Hash
        [Evidence.mockGood exampleMockGood, Evidence.mockGood exampleMockGood2]
      ≠ EvidenceList.Hash
        [Evidence.mockGood exampleMockGood2, Evidence.mockGood exampleMockGood] :=
  evidenceList_hash_order_sensitive _ _ (by decide)

/-- C9: the mock variants' `Equal` runs an unchecked type assertion:
it returns a boolean only when the argument has the same concrete
variant, and panics (modelled `none`) on every other variant instead of
returning false. -/
theorem mock_equal_panics_on_other_variant (g : MockGoodEvidence)
    (b : MockBadEvidence) (ev : Evidence) :
    (ev.isMockGood = false → g.Equal ev = none) ∧
    (ev.isMockGood = true → (g.Equal ev).isSome = true) ∧
    (ev.isMockBad = false → b.Equal ev = none) ∧
    (ev.isMockBad = true → (b.Equal ev).isSome = true) := by
  cases ev <;>
    simp [MockGoodEvidence.Equal, MockBadEvidence.Equal,
      Evidence.isMockGood, Evidence.isMockBad]

/-- C9 witness: concrete cross-variant calls panic (return `none`). -/
theorem mock_equal_panics_on_other_variant_witness :
    MockGoodEvidence.Equal exampleMockGood (Evidence.mockBad exampleMockBad)
      = none ∧
    MockBadEvidence.Equal exampleMockBad (Evidence.mockGood exampleMockGood)
      = none :=
  ⟨(mock_equal_panics_on_other_variant exampleMockGood exampleMockBad
      (Evidence.mockBad exampleMockBad)).1 (by decide),
   (mock_equal_panics_on_other_variant exampleMockGood exampleMockBad
      (Evidence.mockGood exampleMockGood)).2.2.1 (by decide)⟩

end Tendermint
